import Mathlib

/-!
Verification of the character progression and combat engine of the
Committed repository (`game.py`, `game_state.py`).

Conventions of the embedding:

* All integer quantities of the program are modelled as `ℕ`.  The program
  clamps mob hit points with `max(0, hp - damage)`; natural-number
  subtraction `hp - damage` computes exactly that clamp.
* `xp_for_next_level()` returns the real number `100 * level ** 1.5`.
  Over the naturals the comparison `xp ≥ 100 * level ** 1.5` is equivalent
  to `xp * xp ≥ 10000 * level ^ 3` (squaring both non-negative sides), and
  `int(xp_for_next_level())` equals `Nat.sqrt (10000 * level ^ 3)`.
  The bridge lemmas `sq_threshold_iff_rpow` and `xp_needed_eq_floor_rpow`
  below establish this against the real-valued expression.
* Randomness (`random.randint`, `random.choice`, `random.random`) is
  modelled by an explicit stream of draws `g : ℕ → ℕ` together with a
  cursor `k`; each primitive draw consumes one position of the stream.
  `random.randint lo hi` becomes `lo + g k % (hi + 1 - lo)` and
  `random.choice l` becomes `l.getD (g k % l.length) default`; every value
  of the support is reached by some draw, which is how the uniform-choice
  statements are phrased.
* File IO of the persistence adapter is abstracted into the `LoadInput`
  argument of `load` (file missing / unreadable-or-malformed / parsed
  document) and the ignored write-success flag of `save`; the `except`
  clauses of the program make both functions total.
-/

namespace Committed

/-- `Item` dataclass of `game.py`. -/
structure Item where
  name : String
  type : String
  power : ℕ
  description : String
deriving DecidableEq

/-- `Mob` dataclass of `game.py`. -/
structure Mob where
  name : String
  hp : ℕ
  max_hp : ℕ
  level : ℕ
deriving DecidableEq

/-- `Mob.take_damage`: `self.hp = max(0, self.hp - damage); return self.hp <= 0`.
Natural subtraction is the `max(0, _)` clamp. -/
def Mob.take_damage (m : Mob) (damage : ℕ) : Mob × Bool :=
  let m2 : Mob := { m with hp := m.hp - damage }
  (m2, m2.hp == 0)

/-- The five fixed keys of `Character.stats`. -/
structure Stats where
  total_commits : ℕ
  total_damage_dealt : ℕ
  mobs_defeated : ℕ
  items_collected : ℕ
  merge_requests_approved : ℕ
deriving DecidableEq

/-- The `Character` attributes set in `Character.__init__`. -/
structure Character where
  name : String
  level : ℕ
  xp : ℕ
  hp : ℕ
  max_hp : ℕ
  character_class : String
  race : String
  inventory : List Item
  stats : Stats
  current_mob : Option Mob
deriving DecidableEq

/-- `Character.__init__(name)`. -/
def Character.init (name : String) : Character :=
  { name := name
    level := 1
    xp := 0
    hp := 100
    max_hp := 100
    character_class := "Commoner"
    race := "Unknown"
    inventory := []
    stats := ⟨0, 0, 0, 0, 0⟩
    current_mob := none }

/-- `random.randint(lo, hi)` (both ends inclusive), driven by raw draw `r`. -/
def randint (lo hi r : ℕ) : ℕ := lo + r % (hi + 1 - lo)

/-- Square of `xp_for_next_level() = 100 * level ** 1.5`:
`(100 * level ** 1.5) ^ 2 = 10000 * level ^ 3` exactly. -/
def xp_for_next_level_sq (level : ℕ) : ℕ := 10000 * level ^ 3

/-- `int(self.xp_for_next_level())`, the truncation of `100 * level ** 1.5`:
equal to `Nat.sqrt (10000 * level ^ 3)` (see `xp_needed_eq_floor_rpow`). -/
def xp_needed (level : ℕ) : ℕ := Nat.sqrt (10000 * level ^ 3)

/-- `Character.level_up`, with `r` the raw draw behind
`random.randint(5, 15)`. -/
def Character.level_up (c : Character) (r : ℕ) : Character :=
  let hp_increase := randint 5 15 r
  { c with
    xp := c.xp - xp_needed c.level
    level := c.level + 1
    max_hp := c.max_hp + hp_increase
    hp := c.max_hp + hp_increase }

/-- The `while self.xp >= self.xp_for_next_level(): self.level_up()` loop of
`add_xp`, with explicit fuel; `add_xp` passes fuel exceeding the number of
iterations the loop can make, so the fuel never runs out. -/
def add_xp_loop (g : ℕ → ℕ) : ℕ → Character → ℕ → Character × ℕ
  | 0, c, k => (c, k)
  | fuel + 1, c, k =>
    if xp_for_next_level_sq c.level ≤ c.xp * c.xp then
      add_xp_loop g fuel (c.level_up (g k)) (k + 1)
    else
      (c, k)

/-- `Character.add_xp(amount)`.  Returns the updated character and the
position of the draw stream after the level-up rolls. -/
def Character.add_xp (c : Character) (amount : ℕ) (g : ℕ → ℕ) (k : ℕ) :
    Character × ℕ :=
  add_xp_loop g (c.xp + amount + 2) { c with xp := c.xp + amount } k

/-- The fixed `mob_types` catalog of `spawn_mob`: (name, base hp, level). -/
def mob_types : List (String × ℕ × ℕ) :=
  [("Goblin", 20, 1), ("Skeleton", 30, 2), ("Orc", 50, 3),
   ("Troll", 80, 4), ("Dragon", 150, 5)]

/-- The local `suitable_mobs` list of `spawn_mob`: the catalog filtered to
archetypes whose level is at most `character.level + 1`. -/
def suitable_mobs (c : Character) : List (String × ℕ × ℕ) :=
  mob_types.filter fun m => decide (m.2.2 ≤ c.level + 1)

/-- `Character.spawn_mob`, with `r` the raw draw behind `random.choice`. -/
def Character.spawn_mob (c : Character) (r : ℕ) : Character :=
  if (suitable_mobs c).isEmpty then c
  else
    let mob_data := (suitable_mobs c).getD (r % (suitable_mobs c).length) ("", 0, 0)
    let hp := mob_data.2.1 + c.level * 5
    { c with current_mob := some ⟨mob_data.1, hp, hp, mob_data.2.2⟩ }

/-- `Character.add_item`. -/
def Character.add_item (c : Character) (item : Item) : Character :=
  { c with
    inventory := c.inventory ++ [item]
    stats := { c.stats with items_collected := c.stats.items_collected + 1 } }

/-- The `item_types` list shared by `add_special_item` and
`_generate_random_item`. -/
def item_types : List String := ["weapon", "armor", "consumable"]

/-- The per-type name lists of `_generate_random_item` (note: the
consumable branch lists three names, the other two branches four). -/
def loot_names (item_type : String) : List String :=
  if item_type = "weapon" then
    ["Rusty Sword", "Wooden Staff", "Short Bow", "Iron Dagger"]
  else if item_type = "armor" then
    ["Leather Cap", "Cloth Armor", "Wooden Shield", "Iron Boots"]
  else
    ["Health Potion", "Mana Potion", "Scroll of Knowledge"]

/-- `Character._generate_random_item`; draws: type choice, power roll,
name choice. -/
def Character.generate_random_item (c : Character) (g : ℕ → ℕ) (k : ℕ) :
    Item × ℕ :=
  let item_type := item_types.getD (g k % item_types.length) ""
  let power := randint 1 10 (g (k + 1)) + c.level
  let names := loot_names item_type
  let name := names.getD (g (k + 2) % names.length) ""
  (⟨name, item_type, power, "A " ++ item_type ++ " found after battle"⟩, k + 3)

/-- `Character.attack_mob(damage)`.  Returns the updated character, the
dropped item (if any) and the new stream position.  The `none` branch of
the match mirrors the (unreachable) situation where no mob could be
spawned; `spawn_mob` always succeeds since the Goblin archetype passes
every level filter. -/
def Character.attack_mob (c : Character) (damage : ℕ) (g : ℕ → ℕ) (k : ℕ) :
    Character × Option Item × ℕ :=
  let sp := if c.current_mob.isNone then (c.spawn_mob (g k), k + 1) else (c, k)
  let c0 := sp.1
  let k0 := sp.2
  match c0.current_mob with
  | none => (c0, none, k0)
  | some mob =>
    let td := mob.take_damage damage
    let mob2 := td.1
    let defeated := td.2
    let c1 : Character :=
      { c0 with
        current_mob := some mob2
        stats := { c0.stats with
          total_damage_dealt := c0.stats.total_damage_dealt + damage } }
    if defeated then
      let c2 : Character :=
        { c1 with stats := { c1.stats with
            mobs_defeated := c1.stats.mobs_defeated + 1 } }
      let xp_gained := mob2.level * 25
      let ax := c2.add_xp xp_gained g k0
      let c3 := ax.1
      let k3 := ax.2
      let dropped :=
        if g k3 % 10 < 3 then
          let gen := c3.generate_random_item g (k3 + 1)
          (c3.add_item gen.1, some gen.1, gen.2)
        else
          (c3, (none : Option Item), k3 + 1)
      let c4 := dropped.1
      let k4 := dropped.2.2
      let c5 := c4.spawn_mob (g k4)
      (c5, dropped.2.1, k4 + 1)
    else
      (c1, none, k0)

/-- The prefix list of `add_special_item`. -/
def special_prefixes : List String :=
  ["Legendary", "Epic", "Rare", "Magical", "Enchanted"]

/-- The per-type base-name lists of `add_special_item` (five names each). -/
def special_base_names (item_type : String) : List String :=
  if item_type = "weapon" then
    ["Sword", "Axe", "Staff", "Bow", "Dagger"]
  else if item_type = "armor" then
    ["Helmet", "Chestplate", "Boots", "Shield", "Gauntlets"]
  else
    ["Potion", "Elixir", "Scroll", "Tome", "Amulet"]

/-- `Character.add_special_item(mr_title)`; draws: type choice, power roll,
prefix choice, base-name choice.  `mr_title[:50]` is `String.take 50`. -/
def Character.add_special_item (c : Character) (mr_title : String)
    (g : ℕ → ℕ) (k : ℕ) : Character × Item × ℕ :=
  let item_type := item_types.getD (g k % item_types.length) ""
  let power := randint 5 20 (g (k + 1)) + c.level * 2
  let pfx := special_prefixes.getD (g (k + 2) % special_prefixes.length) ""
  let base_names := special_base_names item_type
  let item_name := pfx ++ " " ++ base_names.getD (g (k + 3) % base_names.length) ""
  let item : Item :=
    ⟨item_name, item_type, power,
     "Forged from the approval: " ++ mr_title.take 50⟩
  let c1 := c.add_item item
  let c2 : Character :=
    { c1 with stats := { c1.stats with
        merge_requests_approved := c1.stats.merge_requests_approved + 1 } }
  (c2, item, k + 4)

/-- The dictionary produced by `Character.to_dict` and consumed by
`Character.from_dict`: each key optional, since `from_dict` supplies a
default for each missing key via `dict.get`.  A `current_mob` key that is
absent or `None` is `none`. -/
structure CharDict where
  name : Option String
  level : Option ℕ
  xp : Option ℕ
  hp : Option ℕ
  max_hp : Option ℕ
  character_class : Option String
  race : Option String
  inventory : Option (List Item)
  stats : Option Stats
  current_mob : Option Mob
deriving DecidableEq

/-- The dictionary `{}`: every key absent. -/
def emptyCharDict : CharDict :=
  ⟨none, none, none, none, none, none, none, none, none, none⟩

/-- `Character.to_dict`: every key written. -/
def Character.to_dict (c : Character) : CharDict :=
  ⟨some c.name, some c.level, some c.xp, some c.hp, some c.max_hp,
   some c.character_class, some c.race, some c.inventory, some c.stats,
   c.current_mob⟩

/-- The default stats dictionary of `from_dict`. -/
def default_stats : Stats := ⟨0, 0, 0, 0, 0⟩

/-- `Character.from_dict`. -/
def Character.from_dict (data : CharDict) : Character :=
  let char := Character.init (data.name.getD "Adventurer")
  { char with
    level := data.level.getD 1
    xp := data.xp.getD 0
    hp := data.hp.getD 100
    max_hp := data.max_hp.getD 100
    character_class := data.character_class.getD "Commoner"
    race := data.race.getD "Unknown"
    inventory := data.inventory.getD []
    stats := data.stats.getD default_stats
    current_mob := data.current_mob }

/-- The persisted document of `game_state.py`: a `character` key (optional
on read) and a `last_sync` key. -/
structure SaveDoc where
  character : Option CharDict
  last_sync : Option String
deriving DecidableEq

/-- What `GameState.load` finds: no file, a file whose read or parse
raises (any exception in the `try` body before the assignments), or a
parsed document. -/
inductive LoadInput where
  | missing
  | unreadable
  | doc (d : SaveDoc)

/-- The `GameState` object. -/
structure GameState where
  save_file : String
  character : Option Character
  last_sync : Option String
deriving DecidableEq

/-- `GameState.__init__(save_file)`. -/
def GameState.init (save_file : String) : GameState :=
  ⟨save_file, none, none⟩

/-- `GameState.load`: on a parsed document, `data.get('character', {})`
feeds `from_dict` and `last_sync` is taken from the document; a missing or
unreadable file falls back to `Character("Brave Adventurer")` (the caught
exception is only logged). -/
def GameState.load (gs : GameState) (input : LoadInput) :
    GameState × Character :=
  match input with
  | LoadInput.doc d =>
    let c := Character.from_dict (d.character.getD emptyCharDict)
    ({ gs with character := some c, last_sync := d.last_sync }, c)
  | _ =>
    let c := Character.init "Brave Adventurer"
    ({ gs with character := some c }, c)

/-- `GameState.save`: returns the adapter unchanged together with the
document handed to the file write (`none` when no character is loaded and
the method returns immediately).  `writeOk` models whether the file write
succeeds; it does not occur in the body because the `except` clause
swallows the failure, so neither the result nor the adapter state depends
on it. -/
def GameState.save (gs : GameState) (writeOk : Bool) :
    GameState × Option SaveDoc :=
  match gs.character with
  | none => (gs, none)
  | some c => (gs, some ⟨some c.to_dict, gs.last_sync⟩)

/-! ## Helper lemmas -/

/-- `random.choice` over a non-empty list returns a member of the list. -/
lemma getD_mod_mem {α : Type} (l : List α) (d : α) (r : ℕ) (h : l ≠ []) :
    l.getD (r % l.length) d ∈ l := by
  have hl : 0 < l.length := List.length_pos.mpr h
  have hlt : r % l.length < l.length := Nat.mod_lt _ hl
  rw [List.getD_eq_getElem l d hlt]
  exact List.getElem_mem hlt

/-- The XP cost of a level-up is at least 100 once the level is positive. -/
lemma xp_needed_ge_100 (L : ℕ) (h : 1 ≤ L) : 100 ≤ xp_needed L := by
  apply Nat.le_sqrt.mpr
  have h3 : 1 ≤ L ^ 3 := Nat.one_le_pow _ _ h
  nlinarith

/-- When the level-up guard holds, the subtracted cost does not exceed the
current XP (so the XP counter never goes negative). -/
lemma xp_needed_le_of_gate (x L : ℕ) (h : 10000 * L ^ 3 ≤ x * x) :
    xp_needed L ≤ x := by
  have hs := Nat.sqrt_le_sqrt h
  rwa [show x * x = x ^ 2 by ring, Nat.sqrt_eq'] at hs

/-- The level-up loop of `add_xp` ends with the XP strictly below the
threshold of the final level, and never lowers the level. -/
lemma add_xp_loop_spec (g : ℕ → ℕ) :
    ∀ (fuel : ℕ) (c : Character) (k : ℕ), c.xp < fuel → 1 ≤ c.level →
      (add_xp_loop g fuel c k).1.xp * (add_xp_loop g fuel c k).1.xp <
          xp_for_next_level_sq (add_xp_loop g fuel c k).1.level ∧
        c.level ≤ (add_xp_loop g fuel c k).1.level := by
  intro fuel
  induction fuel with
  | zero => intro c k h1 _; omega
  | succ fuel ih =>
    intro c k h1 h2
    rw [add_xp_loop]
    by_cases hgate : xp_for_next_level_sq c.level ≤ c.xp * c.xp
    · simp only [if_pos hgate]
      have hle : xp_needed c.level ≤ c.xp :=
        xp_needed_le_of_gate c.xp c.level hgate
      have hge : 100 ≤ xp_needed c.level := xp_needed_ge_100 c.level h2
      have hx : (c.level_up (g k)).xp < fuel := by
        show c.xp - xp_needed c.level < fuel
        omega
      have hl : 1 ≤ (c.level_up (g k)).level := by
        show 1 ≤ c.level + 1
        omega
      have hrec := ih (c.level_up (g k)) (k + 1) hx hl
      refine ⟨hrec.1, le_trans ?_ hrec.2⟩
      show c.level ≤ c.level + 1
      omega
    · simp only [if_neg hgate]
      exact ⟨Nat.lt_of_not_le hgate, le_refl _⟩

/-- Squared-threshold encoding against the real-valued expression of the
source: for naturals `x`, `L`, the comparison `x < 100 * L ** 1.5` is
`x * x < 10000 * L ^ 3`. -/
lemma sq_threshold_iff_rpow (x L : ℕ) :
    x * x < 10000 * L ^ 3 ↔ (x : ℝ) < 100 * (L : ℝ) ^ (1.5 : ℝ) := by
  have hL : (0 : ℝ) ≤ (L : ℝ) := Nat.cast_nonneg L
  have ht : (0 : ℝ) ≤ (L : ℝ) ^ (1.5 : ℝ) := Real.rpow_nonneg hL _
  have hsq : ((L : ℝ) ^ (1.5 : ℝ)) ^ (2 : ℕ) = (L : ℝ) ^ (3 : ℕ) := by
    rw [← Real.rpow_natCast ((L : ℝ) ^ (1.5 : ℝ)) 2, ← Real.rpow_mul hL,
      ← Real.rpow_natCast (L : ℝ) 3]
    norm_num
  have hx : (0 : ℝ) ≤ (x : ℝ) := Nat.cast_nonneg x
  constructor
  · intro h
    have hc : (x : ℝ) * (x : ℝ) < 10000 * (L : ℝ) ^ (3 : ℕ) := by
      exact_mod_cast h
    nlinarith
  · intro h
    have hc : (x : ℝ) * (x : ℝ) < 10000 * (L : ℝ) ^ (3 : ℕ) := by
      nlinarith
    exact_mod_cast hc

/-- `int(100 * level ** 1.5)` is `Nat.sqrt (10000 * level ^ 3)`. -/
lemma xp_needed_eq_floor_rpow (L : ℕ) :
    xp_needed L = ⌊(100 : ℝ) * (L : ℝ) ^ (1.5 : ℝ)⌋₊ := by
  have hL : (0 : ℝ) ≤ (L : ℝ) := Nat.cast_nonneg L
  have ht : (0 : ℝ) ≤ (L : ℝ) ^ (1.5 : ℝ) := Real.rpow_nonneg hL _
  have hsq : ((L : ℝ) ^ (1.5 : ℝ)) ^ (2 : ℕ) = (L : ℝ) ^ (3 : ℕ) := by
    rw [← Real.rpow_natCast ((L : ℝ) ^ (1.5 : ℝ)) 2, ← Real.rpow_mul hL,
      ← Real.rpow_natCast (L : ℝ) 3]
    norm_num
  have h1 : Nat.sqrt (10000 * L ^ 3) * Nat.sqrt (10000 * L ^ 3) ≤
      10000 * L ^ 3 := Nat.sqrt_le _
  have h2 : 10000 * L ^ 3 <
      (Nat.sqrt (10000 * L ^ 3) + 1) * (Nat.sqrt (10000 * L ^ 3) + 1) :=
    Nat.lt_succ_sqrt _
  have h1r : ((Nat.sqrt (10000 * L ^ 3) : ℝ)) * (Nat.sqrt (10000 * L ^ 3) : ℝ) ≤
      10000 * (L : ℝ) ^ (3 : ℕ) := by exact_mod_cast h1
  have h2r : 10000 * (L : ℝ) ^ (3 : ℕ) <
      ((Nat.sqrt (10000 * L ^ 3) : ℝ) + 1) * ((Nat.sqrt (10000 * L ^ 3) : ℝ) + 1) := by
    exact_mod_cast h2
  have hs : (0 : ℝ) ≤ (Nat.sqrt (10000 * L ^ 3) : ℝ) := Nat.cast_nonneg _
  symm
  rw [Nat.floor_eq_iff (by positivity)]
  constructor
  · show ((Nat.sqrt (10000 * L ^ 3) : ℝ)) ≤ 100 * (L : ℝ) ^ (1.5 : ℝ)
    nlinarith
  · show (100 : ℝ) * (L : ℝ) ^ (1.5 : ℝ) < (Nat.sqrt (10000 * L ^ 3) : ℝ) + 1
    nlinarith

/-! ## Claim theorems -/

/-- **C1.** For every Character (level ≥ 1) and every non-negative amount,
after `add_xp(amount)` returns the XP is strictly below
`xp_for_next_level(level)` — stated both in the exact squared encoding and
against the real expression `100 * level ** 1.5` — and the level never
decreases. -/
theorem add_xp_leaves_xp_below_threshold (c : Character) (amount : ℕ)
    (g : ℕ → ℕ) (k : ℕ) (h : 1 ≤ c.level) :
    (c.add_xp amount g k).1.xp * (c.add_xp amount g k).1.xp <
        xp_for_next_level_sq (c.add_xp amount g k).1.level ∧
      ((c.add_xp amount g k).1.xp : ℝ) <
        100 * ((c.add_xp amount g k).1.level : ℝ) ^ (1.5 : ℝ) ∧
      c.level ≤ (c.add_xp amount g k).1.level := by
  have hxp : ({ c with xp := c.xp + amount } : Character).xp <
      c.xp + amount + 2 := by
    show c.xp + amount < c.xp + amount + 2
    omega
  have hspec := add_xp_loop_spec g (c.xp + amount + 2)
    { c with xp := c.xp + amount } k hxp h
  unfold Character.add_xp
  exact ⟨hspec.1, (sq_threshold_iff_rpow _ _).mp hspec.1, hspec.2⟩

/-- Witness for **C1** at a concrete input: a fresh level-1 character
granted 250 XP (enough for two level-ups). -/
theorem add_xp_leaves_xp_below_threshold_witness :
    ((Character.init "Hero").add_xp 250 (fun _ => 0) 0).1.xp *
        ((Character.init "Hero").add_xp 250 (fun _ => 0) 0).1.xp <
        xp_for_next_level_sq
          ((Character.init "Hero").add_xp 250 (fun _ => 0) 0).1.level ∧
      (((Character.init "Hero").add_xp 250 (fun _ => 0) 0).1.xp : ℝ) <
        100 * (((Character.init "Hero").add_xp 250 (fun _ => 0) 0).1.level : ℝ) ^
          (1.5 : ℝ) ∧
      (Character.init "Hero").level ≤
        ((Character.init "Hero").add_xp 250 (fun _ => 0) 0).1.level :=
  add_xp_leaves_xp_below_threshold (Character.init "Hero") 250 (fun _ => 0) 0
    (Nat.le_refl 1)

/-- **C3.** Every level-up performed inside `add_xp` (the loop body calls
`level_up`) subtracts `int(xp_for_next_level())` — the floor of
`100 * level ** 1.5` — from the XP, increments the level by 1, raises
`max_hp` by an integer in `[5, 15]` (so `max_hp` strictly increases, and
every value of `[5, 15]` is reached by some draw), and sets `hp` to the
new `max_hp`. -/
theorem level_up_spec (c : Character) (r : ℕ) :
    (c.level_up r).xp = c.xp - xp_needed c.level ∧
      xp_needed c.level = ⌊(100 : ℝ) * (c.level : ℝ) ^ (1.5 : ℝ)⌋₊ ∧
      (c.level_up r).level = c.level + 1 ∧
      (∃ inc, 5 ≤ inc ∧ inc ≤ 15 ∧ (c.level_up r).max_hp = c.max_hp + inc) ∧
      c.max_hp < (c.level_up r).max_hp ∧
      (c.level_up r).hp = (c.level_up r).max_hp ∧
      (List.range 11).map (randint 5 15) =
        [5, 6, 7, 8, 9, 10, 11, 12, 13, 14, 15] := by
  have hmod : r % 11 < 11 := Nat.mod_lt r (by omega)
  refine ⟨rfl, xp_needed_eq_floor_rpow c.level, rfl,
    ⟨randint 5 15 r, ?_, ?_, rfl⟩, ?_, rfl, by decide⟩
  · show 5 ≤ 5 + r % 11
    omega
  · show 5 + r % 11 ≤ 15
    omega
  · show c.max_hp < c.max_hp + (5 + r % 11)
    omega

/-- The Goblin archetype passes every level filter, so `suitable_mobs` is
never empty. -/
lemma suitable_mobs_ne_nil (c : Character) : suitable_mobs c ≠ [] := by
  intro hemp
  have hg : ("Goblin", 20, 1) ∈ suitable_mobs c := by
    apply List.mem_filter.mpr
    constructor
    · simp [mob_types]
    · simp only [decide_eq_true_eq]
      omega
  rw [hemp] at hg
  exact List.not_mem_nil _ hg

lemma suitable_mobs_isEmpty_false (c : Character) :
    (suitable_mobs c).isEmpty = false := by
  cases hE : (suitable_mobs c).isEmpty
  · rfl
  · exact absurd (List.isEmpty_iff.mp hE) (suitable_mobs_ne_nil c)

/-- Closed form of `spawn_mob`: the defensive empty-filter branch is never
taken, and the spawned mob is the chosen archetype scaled by the level. -/
lemma spawn_mob_eq (c : Character) (r : ℕ) :
    c.spawn_mob r = { c with current_mob := some (Mob.mk
      ((suitable_mobs c).getD (r % (suitable_mobs c).length) ("", 0, 0)).1
      (((suitable_mobs c).getD (r % (suitable_mobs c).length) ("", 0, 0)).2.1 +
        c.level * 5)
      (((suitable_mobs c).getD (r % (suitable_mobs c).length) ("", 0, 0)).2.1 +
        c.level * 5)
      ((suitable_mobs c).getD (r % (suitable_mobs c).length) ("", 0, 0)).2.2) } := by
  unfold Character.spawn_mob
  rw [if_neg]
  simp [suitable_mobs_isEmpty_false c]

/-- **C4.** For every Character with level ≥ 1, `spawn_mob` chooses among
the fixed catalog restricted to archetypes whose level is at most
`character.level + 1` (the chosen archetype is a member of the restricted
catalog, and every member of the restricted catalog is chosen for some
draw), and the resulting `current_mob` has
`hp == max_hp == base HP + character.level * 5`. -/
theorem spawn_mob_spec (c : Character) (r : ℕ) (h : 1 ≤ c.level) :
    (∃ a ∈ suitable_mobs c,
        (c.spawn_mob r).current_mob =
            some ⟨a.1, a.2.1 + c.level * 5, a.2.1 + c.level * 5, a.2.2⟩ ∧
          a.2.2 ≤ c.level + 1) ∧
      suitable_mobs c =
        mob_types.filter (fun m => decide (m.2.2 ≤ c.level + 1)) ∧
      (∀ a ∈ mob_types, a.2.2 ≤ c.level + 1 →
        ∃ r2, (c.spawn_mob r2).current_mob =
          some ⟨a.1, a.2.1 + c.level * 5, a.2.1 + c.level * 5, a.2.2⟩) := by
  refine ⟨⟨(suitable_mobs c).getD (r % (suitable_mobs c).length) ("", 0, 0),
    getD_mod_mem _ _ _ (suitable_mobs_ne_nil c), ?_, ?_⟩, rfl, ?_⟩
  · rw [spawn_mob_eq]
  · have hmem := getD_mod_mem (suitable_mobs c) ("", 0, 0) r
      (suitable_mobs_ne_nil c)
    have hpa := (List.mem_filter.mp hmem).2
    simpa using hpa
  · intro a ha hlev
    have hmem : a ∈ suitable_mobs c :=
      List.mem_filter.mpr ⟨ha, by simpa using hlev⟩
    obtain ⟨i, hi, hgi⟩ := List.mem_iff_getElem.mp hmem
    refine ⟨i, ?_⟩
    rw [spawn_mob_eq]
    have hmod : i % (suitable_mobs c).length = i := Nat.mod_eq_of_lt hi
    simp only [hmod, List.getD_eq_getElem _ _ hi, hgi]

/-- Witness for **C4** at a concrete input: a fresh level-1 character and
draw 3 (which selects the Skeleton among the two suitable archetypes). -/
theorem spawn_mob_spec_witness :
    (∃ a ∈ suitable_mobs (Character.init "Hero"),
        ((Character.init "Hero").spawn_mob 3).current_mob =
            some ⟨a.1, a.2.1 + (Character.init "Hero").level * 5,
              a.2.1 + (Character.init "Hero").level * 5, a.2.2⟩ ∧
          a.2.2 ≤ (Character.init "Hero").level + 1) ∧
      suitable_mobs (Character.init "Hero") =
        mob_types.filter
          (fun m => decide (m.2.2 ≤ (Character.init "Hero").level + 1)) ∧
      (∀ a ∈ mob_types, a.2.2 ≤ (Character.init "Hero").level + 1 →
        ∃ r2, ((Character.init "Hero").spawn_mob r2).current_mob =
          some ⟨a.1, a.2.1 + (Character.init "Hero").level * 5,
            a.2.1 + (Character.init "Hero").level * 5, a.2.2⟩) :=
  spawn_mob_spec (Character.init "Hero") 3 (Nat.le_refl 1)

/-- **C5.** For every Character with a non-empty inventory and an active
current mob, `from_dict(to_dict(character))` reproduces the character
exactly: same name, level, xp, hp, max_hp, class, race, stats, inventory
(in order) and current_mob. -/
theorem from_dict_to_dict_roundtrip (c : Character) (m : Mob)
    (h1 : c.inventory ≠ []) (h2 : c.current_mob = some m) :
    Character.from_dict c.to_dict = c := by
  cases c
  rfl

/-- A concrete character with one item and an active mob. -/
def sample_char : Character :=
  { name := "Hero"
    level := 3
    xp := 50
    hp := 90
    max_hp := 110
    character_class := "Wizard"
    race := "Human"
    inventory := [⟨"Rusty Sword", "weapon", 4, "A weapon found after battle"⟩]
    stats := ⟨1, 2, 3, 4, 5⟩
    current_mob := some ⟨"Orc", 40, 65, 3⟩ }

/-- Witness for **C5** at a concrete input. -/
theorem from_dict_to_dict_roundtrip_witness :
    Character.from_dict sample_char.to_dict = sample_char :=
  from_dict_to_dict_roundtrip sample_char ⟨"Orc", 40, 65, 3⟩
    (List.cons_ne_nil _ _) rfl

lemma special_prefixes_ne_nil : special_prefixes ≠ [] :=
  List.cons_ne_nil _ _

lemma special_base_names_ne_nil (s : String) : special_base_names s ≠ [] := by
  unfold special_base_names
  split
  · exact List.cons_ne_nil _ _
  · split
    · exact List.cons_ne_nil _ _
    · exact List.cons_ne_nil _ _

/-- Every base-name list of `add_special_item` has five entries. -/
lemma special_base_names_length (s : String) :
    (special_base_names s).length = 5 := by
  unfold special_base_names
  split
  · rfl
  · split
    · rfl
    · rfl

/-- **C6.** For every Character and title, `add_special_item(title)`
always returns an item (no chance gate) whose description embeds exactly
the first 50 characters of the title, whose power is
`random_int(5, 20) + level * 2`, whose name is one of the five prefixes
followed by one of the chosen type's five base names; the item is appended
to the inventory and `items_collected` and `merge_requests_approved` are
each incremented by exactly 1. -/
theorem add_special_item_spec (c : Character) (title : String)
    (g : ℕ → ℕ) (k : ℕ) :
    (c.add_special_item title g k).2.1.description =
        "Forged from the approval: " ++ title.take 50 ∧
      (∃ p, 5 ≤ p ∧ p ≤ 20 ∧
        (c.add_special_item title g k).2.1.power = p + c.level * 2) ∧
      (∃ pf ∈ special_prefixes,
        ∃ bn ∈ special_base_names (c.add_special_item title g k).2.1.type,
          (c.add_special_item title g k).2.1.name = pf ++ " " ++ bn) ∧
      special_prefixes.length = 5 ∧
      (special_base_names (c.add_special_item title g k).2.1.type).length = 5 ∧
      (c.add_special_item title g k).1.inventory =
        c.inventory ++ [(c.add_special_item title g k).2.1] ∧
      (c.add_special_item title g k).1.stats.items_collected =
        c.stats.items_collected + 1 ∧
      (c.add_special_item title g k).1.stats.merge_requests_approved =
        c.stats.merge_requests_approved + 1 := by
  have hmod16 : g (k + 1) % 16 < 16 := Nat.mod_lt _ (by omega)
  refine ⟨rfl, ⟨randint 5 20 (g (k + 1)), ?_, ?_, rfl⟩,
    ⟨special_prefixes.getD (g (k + 2) % special_prefixes.length) "",
      getD_mod_mem _ _ _ special_prefixes_ne_nil,
      (special_base_names
          (item_types.getD (g k % item_types.length) "")).getD
        (g (k + 3) %
          (special_base_names
            (item_types.getD (g k % item_types.length) "")).length) "",
      getD_mod_mem _ _ _ (special_base_names_ne_nil _), rfl⟩,
    rfl, special_base_names_length _, rfl, rfl, rfl⟩
  · show 5 ≤ 5 + g (k + 1) % 16
    omega
  · show 5 + g (k + 1) % 16 ≤ 20
    omega

lemma loot_names_ne_nil (s : String) : loot_names s ≠ [] := by
  unfold loot_names
  split
  · exact List.cons_ne_nil _ _
  · split
    · exact List.cons_ne_nil _ _
    · exact List.cons_ne_nil _ _

/-- The loot name lists have four entries for weapon and armor but three
for consumable. -/
lemma loot_names_length_of_mem (t : String) (ht : t ∈ item_types) :
    (loot_names t).length = if t = "consumable" then 3 else 4 := by
  fin_cases ht <;> rfl

/-- **C7 counterexample.** The claim says every combat loot item draws its
name from a fixed 4-name list for its type; the consumable list of
`_generate_random_item` has only three names.  Concrete input: draw stream
constantly 2, which selects the consumable type. -/
theorem generate_random_item_four_names_counterexample :
    ((Character.init "Hero").generate_random_item (fun _ => 2) 0).1.type =
        "consumable" ∧
      loot_names
          ((Character.init "Hero").generate_random_item (fun _ => 2) 0).1.type =
        ["Health Potion", "Mana Potion", "Scroll of Knowledge"] ∧
      (loot_names
          ((Character.init "Hero").generate_random_item
            (fun _ => 2) 0).1.type).length = 3 :=
  ⟨rfl, rfl, rfl⟩

/-- **C7 (amended).** Every combat loot item has its name chosen from the
fixed per-type name list — four names for weapon and armor, three for
consumable — and power equal to `random_int(1, 10)` plus the character
level. -/
theorem generate_random_item_spec (c : Character) (g : ℕ → ℕ) (k : ℕ) :
    (c.generate_random_item g k).1.type ∈ item_types ∧
      (c.generate_random_item g k).1.name ∈
        loot_names (c.generate_random_item g k).1.type ∧
      (loot_names (c.generate_random_item g k).1.type).length =
        (if (c.generate_random_item g k).1.type = "consumable" then 3
          else 4) ∧
      (∃ p, 1 ≤ p ∧ p ≤ 10 ∧
        (c.generate_random_item g k).1.power = p + c.level) := by
  have hmod10 : g (k + 1) % 10 < 10 := Nat.mod_lt _ (by omega)
  have htype : (c.generate_random_item g k).1.type ∈ item_types := by
    show item_types.getD (g k % item_types.length) "" ∈ item_types
    exact getD_mod_mem _ _ _ (List.cons_ne_nil _ _)
  refine ⟨htype, ?_, loot_names_length_of_mem _ htype,
    ⟨randint 1 10 (g (k + 1)), ?_, ?_, rfl⟩⟩
  · show (loot_names (item_types.getD (g k % item_types.length) "")).getD
        (g (k + 2) %
          (loot_names (item_types.getD (g k % item_types.length) "")).length)
        "" ∈
      loot_names (item_types.getD (g k % item_types.length) "")
    exact getD_mod_mem _ _ _ (loot_names_ne_nil _)
  · show 1 ≤ 1 + g (k + 1) % 10
    omega
  · show 1 + g (k + 1) % 10 ≤ 10
    omega

/-- **C8.** For every missing, unreadable or malformed save document,
`load()` returns a freshly constructed Character named "Brave Adventurer"
with level 1, empty inventory and no current mob; the caught exception is
only logged (the embedding of `load` is total), so corruption and IO
failure behave exactly like a missing save. -/
theorem load_fallback_spec (gs : GameState) (input : LoadInput)
    (h : input = LoadInput.missing ∨ input = LoadInput.unreadable) :
    (gs.load input).2 = Character.init "Brave Adventurer" ∧
      (gs.load input).2.name = "Brave Adventurer" ∧
      (gs.load input).2.level = 1 ∧
      (gs.load input).2.inventory = [] ∧
      (gs.load input).2.current_mob = none := by
  rcases h with h | h <;> subst h <;> exact ⟨rfl, rfl, rfl, rfl, rfl⟩

/-- Witness for **C8** at a concrete input: a fresh adapter and a missing
file. -/
theorem load_fallback_spec_witness :
    ((GameState.init "game_state.json").load LoadInput.missing).2 =
        Character.init "Brave Adventurer" ∧
      ((GameState.init "game_state.json").load LoadInput.missing).2.name =
        "Brave Adventurer" ∧
      ((GameState.init "game_state.json").load LoadInput.missing).2.level = 1 ∧
      ((GameState.init "game_state.json").load
        LoadInput.missing).2.inventory = [] ∧
      ((GameState.init "game_state.json").load
        LoadInput.missing).2.current_mob = none :=
  load_fallback_spec (GameState.init "game_state.json") LoadInput.missing
    (Or.inl rfl)

lemma save_eq_none (gs : GameState) (w : Bool) (h : gs.character = none) :
    gs.save w = (gs, none) := by
  unfold GameState.save
  rw [h]

lemma save_eq_some (gs : GameState) (w : Bool) (c : Character)
    (h : gs.character = some c) :
    gs.save w = (gs, some ⟨some c.to_dict, gs.last_sync⟩) := by
  unfold GameState.save
  rw [h]

/-- **C9.** `save()` leaves the adapter unchanged and is a no-op when no
character is loaded; otherwise the written document carries the adapter's
in-memory `last_sync` unchanged alongside the serialized character; and
the outcome does not depend on whether the file write succeeds (the IO
failure is swallowed, never raised). -/
theorem save_spec (gs : GameState) (w : Bool) :
    (gs.save w).1 = gs ∧
      (gs.character = none → (gs.save w).2 = none) ∧
      (∀ c, gs.character = some c →
        (gs.save w).2 = some ⟨some c.to_dict, gs.last_sync⟩) ∧
      gs.save w = gs.save true := by
  rcases hgc : gs.character with _ | c
  · rw [save_eq_none gs w hgc]
    refine ⟨rfl, fun _ => rfl, ?_, ?_⟩
    · intro c hcc
      exact Option.noConfusion hcc
    · rw [save_eq_none gs true hgc]
  · rw [save_eq_some gs w c hgc]
    refine ⟨rfl, ?_, ?_, ?_⟩
    · intro hnone
      exact Option.noConfusion hnone
    · intro c2 hcc
      injection hcc with hcc2
      subst hcc2
      rfl
    · rw [save_eq_some gs true c hgc]

/-- **C10.** A well-formed document that merely lacks the `character` key
(or whose character object lacks a `name` field) does not take the
fresh-character fallback: `load()` yields the `from_dict` defaults — a
default-constructed character named "Adventurer", observably different
from the "Brave Adventurer" of the missing/corrupt-file path. -/
theorem load_missing_key_spec (gs : GameState) (d : SaveDoc)
    (cd : CharDict) :
    (d.character = none →
      (gs.load (LoadInput.doc d)).2 = Character.from_dict emptyCharDict ∧
        (gs.load (LoadInput.doc d)).2 = Character.init "Adventurer") ∧
      (d.character = some cd → cd.name = none →
        (gs.load (LoadInput.doc d)).2.name = "Adventurer") ∧
      "Adventurer" ≠ "Brave Adventurer" := by
  refine ⟨?_, ?_, by decide⟩
  · intro hd
    constructor
    · show Character.from_dict (d.character.getD emptyCharDict) =
        Character.from_dict emptyCharDict
      rw [hd]
      rfl
    · show Character.from_dict (d.character.getD emptyCharDict) =
        Character.init "Adventurer"
      rw [hd]
      rfl
  · intro hd hname
    show (Character.from_dict (d.character.getD emptyCharDict)).name =
      "Adventurer"
    rw [hd]
    show cd.name.getD "Adventurer" = "Adventurer"
    rw [hname]
    rfl

/-! ## Frame lemmas for `attack_mob` -/

lemma spawn_mob_stats (c : Character) (r : ℕ) :
    (c.spawn_mob r).stats = c.stats := by
  rw [spawn_mob_eq]

lemma spawn_mob_xp (c : Character) (r : ℕ) : (c.spawn_mob r).xp = c.xp := by
  rw [spawn_mob_eq]

lemma spawn_mob_level (c : Character) (r : ℕ) :
    (c.spawn_mob r).level = c.level := by
  rw [spawn_mob_eq]

/-- `spawn_mob` always installs a fresh mob (full hit points). -/
lemma spawn_mob_fresh (c : Character) (r : ℕ) :
    ∃ m2, (c.spawn_mob r).current_mob = some m2 ∧ m2.hp = m2.max_hp := by
  rw [spawn_mob_eq]
  exact ⟨_, rfl, rfl⟩

/-- The level-up loop touches only xp, level, hp and max_hp. -/
lemma add_xp_loop_frame (g : ℕ → ℕ) :
    ∀ (fuel : ℕ) (c : Character) (k : ℕ),
      (add_xp_loop g fuel c k).1.stats = c.stats ∧
        (add_xp_loop g fuel c k).1.inventory = c.inventory ∧
        (add_xp_loop g fuel c k).1.current_mob = c.current_mob := by
  intro fuel
  induction fuel with
  | zero => intro c k; exact ⟨rfl, rfl, rfl⟩
  | succ fuel ih =>
    intro c k
    rw [add_xp_loop]
    by_cases hg : xp_for_next_level_sq c.level ≤ c.xp * c.xp
    · rw [if_pos hg]
      exact ih (c.level_up (g k)) (k + 1)
    · rw [if_neg hg]
      exact ⟨rfl, rfl, rfl⟩

lemma add_xp_stats (c : Character) (n : ℕ) (g : ℕ → ℕ) (k : ℕ) :
    (c.add_xp n g k).1.stats = c.stats :=
  (add_xp_loop_frame g (c.xp + n + 2) { c with xp := c.xp + n } k).1

/-- The level-up loop reads and writes only xp, level, hp and max_hp: two
states agreeing on those four fields stay in lockstep. -/
lemma add_xp_loop_agree (g : ℕ → ℕ) :
    ∀ (fuel : ℕ) (a b : Character) (k : ℕ), a.xp = b.xp →
      a.level = b.level → a.hp = b.hp → a.max_hp = b.max_hp →
      (add_xp_loop g fuel a k).1.xp = (add_xp_loop g fuel b k).1.xp ∧
        (add_xp_loop g fuel a k).1.level = (add_xp_loop g fuel b k).1.level ∧
        (add_xp_loop g fuel a k).1.hp = (add_xp_loop g fuel b k).1.hp ∧
        (add_xp_loop g fuel a k).1.max_hp =
          (add_xp_loop g fuel b k).1.max_hp ∧
        (add_xp_loop g fuel a k).2 = (add_xp_loop g fuel b k).2 := by
  intro fuel
  induction fuel with
  | zero => intro a b k h1 h2 h3 h4; exact ⟨h1, h2, h3, h4, rfl⟩
  | succ fuel ih =>
    intro a b k h1 h2 h3 h4
    rw [add_xp_loop, add_xp_loop]
    by_cases hg : xp_for_next_level_sq a.level ≤ a.xp * a.xp
    · have hgb : xp_for_next_level_sq b.level ≤ b.xp * b.xp := by
        rw [← h1, ← h2]; exact hg
      rw [if_pos hg, if_pos hgb]
      apply ih
      · show a.xp - xp_needed a.level = b.xp - xp_needed b.level
        rw [h1, h2]
      · show a.level + 1 = b.level + 1
        rw [h2]
      · show a.max_hp + randint 5 15 (g k) = b.max_hp + randint 5 15 (g k)
        rw [h4]
      · show a.max_hp + randint 5 15 (g k) = b.max_hp + randint 5 15 (g k)
        rw [h4]
    · have hgb : ¬ xp_for_next_level_sq b.level ≤ b.xp * b.xp := by
        rw [← h1, ← h2]; exact hg
      rw [if_neg hg, if_neg hgb]
      exact ⟨h1, h2, h3, h4, rfl⟩

lemma add_xp_agree (a b : Character) (n : ℕ) (g : ℕ → ℕ) (k : ℕ)
    (h1 : a.xp = b.xp) (h2 : a.level = b.level) (h3 : a.hp = b.hp)
    (h4 : a.max_hp = b.max_hp) :
    (a.add_xp n g k).1.xp = (b.add_xp n g k).1.xp ∧
      (a.add_xp n g k).1.level = (b.add_xp n g k).1.level ∧
      (a.add_xp n g k).2 = (b.add_xp n g k).2 := by
  unfold Character.add_xp
  rw [h1]
  have h := add_xp_loop_agree g (b.xp + n + 2) { a with xp := b.xp + n }
    { b with xp := b.xp + n } k rfl h2 h3 h4
  exact ⟨h.1, h.2.1, h.2.2.2.2⟩

/-- The character state right after a defeat is recorded: damaged mob,
damage counted, kill counted (the state `add_xp` then runs on). -/
def after_defeat_base (c : Character) (m : Mob) (d : ℕ) : Character :=
  { c with
    current_mob := some { m with hp := m.hp - d }
    stats := { c.stats with
      total_damage_dealt := c.stats.total_damage_dealt + d
      mobs_defeated := c.stats.mobs_defeated + 1 } }

/-- The tail of `attack_mob`'s defeat branch after the XP grant: the 30 %
drop roll followed by the respawn.  `c3` is the character returned by
`add_xp` and `k3` the draw-stream position it left off at. -/
def after_xp_pipeline (c3 : Character) (g : ℕ → ℕ) (k3 : ℕ) :
    Character × Option Item × ℕ :=
  if g k3 % 10 < 3 then
    ((c3.add_item (c3.generate_random_item g (k3 + 1)).1).spawn_mob
        (g (c3.generate_random_item g (k3 + 1)).2),
      some (c3.generate_random_item g (k3 + 1)).1,
      (c3.generate_random_item g (k3 + 1)).2 + 1)
  else
    (c3.spawn_mob (g (k3 + 1)), none, k3 + 1 + 1)

/-- `attack_mob` on a live current mob surviving the damage: the mob stays,
damaged, no item, no other change. -/
lemma attack_mob_eq_no_defeat (c : Character) (m : Mob) (d : ℕ)
    (g : ℕ → ℕ) (k : ℕ) (hm : c.current_mob = some m)
    (hnd : m.hp - d ≠ 0) :
    c.attack_mob d g k =
      ({ c with
          current_mob := some { m with hp := m.hp - d }
          stats := { c.stats with
            total_damage_dealt := c.stats.total_damage_dealt + d } },
        none, k) := by
  unfold Character.attack_mob
  simp only [hm, Option.isNone_some]
  rw [if_neg Bool.false_ne_true]
  simp only [hm, Mob.take_damage]
  rw [if_neg (by simp [hnd])]

/-- `attack_mob` on a current mob that the damage defeats: record the
defeat, grant the XP, then run the drop roll and the respawn. -/
lemma attack_mob_eq_defeat (c : Character) (m : Mob) (d : ℕ)
    (g : ℕ → ℕ) (k : ℕ) (hm : c.current_mob = some m)
    (hd : m.hp - d = 0) :
    c.attack_mob d g k =
      after_xp_pipeline ((after_defeat_base c m d).add_xp (m.level * 25) g k).1
        g ((after_defeat_base c m d).add_xp (m.level * 25) g k).2 := by
  unfold Character.attack_mob after_xp_pipeline after_defeat_base
  simp only [hm, Option.isNone_some]
  rw [if_neg Bool.false_ne_true]
  simp only [hm, Mob.take_damage]
  rw [if_pos (by simp [hd])]
  split_ifs <;> rfl

/-- What the post-XP tail of the defeat branch preserves and guarantees:
the damage and kill counters, xp and level pass through unchanged, and the
final current mob is freshly spawned. -/
lemma after_xp_pipeline_spec (c3 : Character) (g : ℕ → ℕ) (k3 : ℕ) :
    (after_xp_pipeline c3 g k3).1.stats.total_damage_dealt =
        c3.stats.total_damage_dealt ∧
      (after_xp_pipeline c3 g k3).1.stats.mobs_defeated =
        c3.stats.mobs_defeated ∧
      (after_xp_pipeline c3 g k3).1.xp = c3.xp ∧
      (after_xp_pipeline c3 g k3).1.level = c3.level ∧
      ∃ m2, (after_xp_pipeline c3 g k3).1.current_mob = some m2 ∧
        m2.hp = m2.max_hp := by
  unfold after_xp_pipeline
  by_cases hdrop : g k3 % 10 < 3
  · rw [if_pos hdrop]
    refine ⟨?_, ?_, ?_, ?_, spawn_mob_fresh _ _⟩
    · rw [spawn_mob_stats]; rfl
    · rw [spawn_mob_stats]; rfl
    · rw [spawn_mob_xp]; rfl
    · rw [spawn_mob_level]; rfl
  · rw [if_neg hdrop]
    refine ⟨?_, ?_, ?_, ?_, spawn_mob_fresh _ _⟩
    · rw [spawn_mob_stats]
    · rw [spawn_mob_stats]
    · rw [spawn_mob_xp]
    · rw [spawn_mob_level]

/-- **C2.** For every Character with a current mob and any damage,
`attack_mob(damage)` floors the mob's hp at 0 with defeat exactly when the
hp reaches 0, unconditionally adds the full damage (overkill included) to
`total_damage_dealt`, and: on defeat increments `mobs_defeated` by 1,
grants XP equal to the defeated mob's level * 25 via `add_xp`, and leaves
a freshly spawned `current_mob`; on non-defeat returns none and keeps the
same damaged mob current. -/
theorem attack_mob_spec (c : Character) (m : Mob) (d : ℕ) (g : ℕ → ℕ)
    (k : ℕ) (hm : c.current_mob = some m) :
    (c.attack_mob d g k).1.stats.total_damage_dealt =
        c.stats.total_damage_dealt + d ∧
      (d < m.hp →
        (c.attack_mob d g k).2.1 = none ∧
          (c.attack_mob d g k).1.current_mob =
            some { m with hp := m.hp - d } ∧
          (c.attack_mob d g k).1.stats.mobs_defeated =
            c.stats.mobs_defeated ∧
          (c.attack_mob d g k).1.xp = c.xp ∧
          (c.attack_mob d g k).1.level = c.level) ∧
      (m.hp ≤ d →
        (c.attack_mob d g k).1.stats.mobs_defeated =
            c.stats.mobs_defeated + 1 ∧
          (c.attack_mob d g k).1.xp = (c.add_xp (m.level * 25) g k).1.xp ∧
          (c.attack_mob d g k).1.level =
            (c.add_xp (m.level * 25) g k).1.level ∧
          ∃ m2, (c.attack_mob d g k).1.current_mob = some m2 ∧
            m2.hp = m2.max_hp) := by
  by_cases hdef : m.hp - d = 0
  · have heq := attack_mob_eq_defeat c m d g k hm hdef
    have hpipe := after_xp_pipeline_spec
      ((after_defeat_base c m d).add_xp (m.level * 25) g k).1 g
      ((after_defeat_base c m d).add_xp (m.level * 25) g k).2
    have hagree := add_xp_agree (after_defeat_base c m d) c (m.level * 25)
      g k rfl rfl rfl rfl
    refine ⟨?_, ?_, ?_⟩
    · rw [heq, hpipe.1, add_xp_stats]
      rfl
    · intro hlt
      exact absurd hdef (by omega)
    · intro _
      refine ⟨?_, ?_, ?_, ?_⟩
      · rw [heq, hpipe.2.1, add_xp_stats]
        rfl
      · rw [heq, hpipe.2.2.1, hagree.1]
      · rw [heq, hpipe.2.2.2.1, hagree.2.1]
      · rw [heq]
        exact hpipe.2.2.2.2
  · have heq := attack_mob_eq_no_defeat c m d g k hm hdef
    refine ⟨?_, ?_, ?_⟩
    · rw [heq]
    · intro _
      rw [heq]
      exact ⟨rfl, rfl, rfl, rfl, rfl⟩
    · intro hge
      exact absurd hdef (by omega)

/-- Witness for **C2** at a concrete input: a fresh level-1 character
facing a Goblin of 25 hp, hit for 10000 (massive overkill). -/
theorem attack_mob_spec_witness :
    (({ Character.init "Hero" with
          current_mob := some ⟨"Goblin", 25, 25, 1⟩ } : Character).attack_mob
          10000 (fun _ => 0) 0).1.stats.total_damage_dealt =
        ({ Character.init "Hero" with
            current_mob := some ⟨"Goblin", 25, 25, 1⟩ } :
          Character).stats.total_damage_dealt + 10000 ∧
      (10000 < (⟨"Goblin", 25, 25, 1⟩ : Mob).hp →
        (({ Character.init "Hero" with
              current_mob := some ⟨"Goblin", 25, 25, 1⟩ } :
            Character).attack_mob 10000 (fun _ => 0) 0).2.1 = none ∧
          (({ Character.init "Hero" with
                current_mob := some ⟨"Goblin", 25, 25, 1⟩ } :
              Character).attack_mob 10000 (fun _ => 0) 0).1.current_mob =
            some { (⟨"Goblin", 25, 25, 1⟩ : Mob) with
              hp := (⟨"Goblin", 25, 25, 1⟩ : Mob).hp - 10000 } ∧
          (({ Character.init "Hero" with
                current_mob := some ⟨"Goblin", 25, 25, 1⟩ } :
              Character).attack_mob 10000
              (fun _ => 0) 0).1.stats.mobs_defeated =
            ({ Character.init "Hero" with
                current_mob := some ⟨"Goblin", 25, 25, 1⟩ } :
              Character).stats.mobs_defeated ∧
          (({ Character.init "Hero" with
                current_mob := some ⟨"Goblin", 25, 25, 1⟩ } :
              Character).attack_mob 10000 (fun _ => 0) 0).1.xp =
            ({ Character.init "Hero" with
                current_mob := some ⟨"Goblin", 25, 25, 1⟩ } :
              Character).xp ∧
          (({ Character.init "Hero" with
                current_mob := some ⟨"Goblin", 25, 25, 1⟩ } :
              Character).attack_mob 10000 (fun _ => 0) 0).1.level =
            ({ Character.init "Hero" with
                current_mob := some ⟨"Goblin", 25, 25, 1⟩ } :
              Character).level) ∧
      ((⟨"Goblin", 25, 25, 1⟩ : Mob).hp ≤ 10000 →
        (({ Character.init "Hero" with
              current_mob := some ⟨"Goblin", 25, 25, 1⟩ } :
            Character).attack_mob 10000
            (fun _ => 0) 0).1.stats.mobs_defeated =
            ({ Character.init "Hero" with
                current_mob := some ⟨"Goblin", 25, 25, 1⟩ } :
              Character).stats.mobs_defeated + 1 ∧
          (({ Character.init "Hero" with
                current_mob := some ⟨"Goblin", 25, 25, 1⟩ } :
              Character).attack_mob 10000 (fun _ => 0) 0).1.xp =
            (({ Character.init "Hero" with
                  current_mob := some ⟨"Goblin", 25, 25, 1⟩ } :
                Character).add_xp ((⟨"Goblin", 25, 25, 1⟩ : Mob).level * 25)
                (fun _ => 0) 0).1.xp ∧
          (({ Character.init "Hero" with
                current_mob := some ⟨"Goblin", 25, 25, 1⟩ } :
              Character).attack_mob 10000 (fun _ => 0) 0).1.level =
            (({ Character.init "Hero" with
                  current_mob := some ⟨"Goblin", 25, 25, 1⟩ } :
                Character).add_xp ((⟨"Goblin", 25, 25, 1⟩ : Mob).level * 25)
                (fun _ => 0) 0).1.level ∧
          ∃ m2,
            (({ Character.init "Hero" with
                  current_mob := some ⟨"Goblin", 25, 25, 1⟩ } :
                Character).attack_mob 10000
                (fun _ => 0) 0).1.current_mob = some m2 ∧
              m2.hp = m2.max_hp) :=
  attack_mob_spec
    { Character.init "Hero" with current_mob := some ⟨"Goblin", 25, 25, 1⟩ }
    ⟨"Goblin", 25, 25, 1⟩ 10000 (fun _ => 0) 0 rfl

end Committed
